import Mathlib

/-!
# Verification of the OctopusCopilot query-routing and sanitization core

A shallow embedding of the repository's core components:

* `sanitize_list` and the per-entity sanitizers (`src/domain/strings/sanitized_list.py`),
  including a small regex matcher modelling the subset of Python `re.match`
  used by the ignore patterns;
* `query_llm` and `handle_copilot_tools_execution`
  (`src/domain/handlers/copilot_handler.py`), with the model invocation and
  the optional query logger modelled as explicit collaborators and an event
  trace recording the calls made;
* `is_admin_user` (`src/domain/security/security.py`), with `json.loads`
  modelled for JSON arrays of strings.

Python values that can flow into `sanitize_list` are modelled by `PyVal`;
Python exceptions by `PyErr`; fallible code returns `Except PyErr`.
-/

/-- Python exceptions that the embedded code can raise. -/
inductive PyErr where
  | typeError (msg : String)
  | attributeError (msg : String)
  | invalidArgument (msg : String)
  | valueError (msg : String)
  | notAuthorized
  deriving DecidableEq, Repr

/-- Python values that flow into the sanitizer: strings, lists, tuples,
`None`, ints and bools.  This is the input domain `sanitize_list` is
exercised with. -/
inductive PyVal where
  | str (s : String)
  | list (xs : List PyVal)
  | tuple (xs : List PyVal)
  | none
  | int (n : Int)
  | bool (b : Bool)

/-- Python truthiness for `PyVal` (`if input_list:` etc.). -/
def PyVal.truthy : PyVal → Bool
  | .str s => s ≠ ""
  | .list xs => !xs.isEmpty
  | .tuple xs => !xs.isEmpty
  | .none => false
  | .int n => n ≠ 0
  | .bool b => b

/-- Whitespace characters stripped by Python's `str.strip()` (the ASCII
subset relevant to this code). -/
def isPySpace (c : Char) : Bool :=
  c = ' ' || c = '\t' || c = '\n' || c = '\r'

/-- Python `str.strip()` on the character list: drop leading and trailing
whitespace. -/
def stripChars (l : List Char) : List Char :=
  ((l.dropWhile isPySpace).reverse.dropWhile isPySpace).reverse

/-- Python `str.strip()`. -/
def pyStrip (s : String) : String :=
  ⟨stripChars s.data⟩

/-- The subset of Python regular expressions used by the sanitizer's ignore
patterns: single characters (possibly backslash-escaped in the source),
character classes (as a character predicate), concatenation, alternation
and an optional (`?`) group. -/
inductive Regex where
  | eps
  | chr (c : Char)
  | cls (p : Char → Bool)
  | cat (a b : Regex)
  | alt (a b : Regex)
  | opt (a : Regex)

/-- All ways `r` can match a prefix of `cs`, as the list of possible
remainders. -/
def Regex.matchList : Regex → List Char → List (List Char)
  | .eps, cs => [cs]
  | .chr _, [] => []
  | .chr c, d :: cs => if c = d then [cs] else []
  | .cls _, [] => []
  | .cls p, d :: cs => if p d then [cs] else []
  | .cat a b, cs => (a.matchList cs).flatMap b.matchList
  | .alt a b, cs => a.matchList cs ++ b.matchList cs
  | .opt a, cs => cs :: a.matchList cs

/-- Python `re.match(r, s)` truthiness: does `r` match at the start of `s`
(the match may cover any prefix)? -/
def reMatch (r : Regex) (s : String) : Bool :=
  !(r.matchList s.data).isEmpty

/-- A compiled Python pattern: the pattern's source string (Python passes
patterns around as strings) together with the regex it compiles to. -/
structure Pattern where
  src : String
  re : Regex

/-- Concatenation of single-character regexes for a literal string. -/
def rstr (s : String) : Regex :=
  s.data.foldr (fun c r => Regex.cat (Regex.chr c) r) Regex.eps

/-- The character class `[0-9A-Z]`. -/
def clsDigitUpper : Char → Bool := fun c =>
  ('0' ≤ c && c ≤ '9') || ('A' ≤ c && c ≤ 'Z')

/-- `"\\*|Project [0-9A-Z]|MyProject"` compiled. -/
def projectsPattern : Pattern :=
  ⟨"\\*|Project [0-9A-Z]|MyProject",
   .alt (.chr '*')
     (.alt (.cat (rstr "Project ") (.cls clsDigitUpper)) (rstr "MyProject"))⟩

/-- `"\\*|Tenant [0-9A-Z]|MyTenant"` compiled. -/
def tenantsPattern : Pattern :=
  ⟨"\\*|Tenant [0-9A-Z]|MyTenant",
   .alt (.chr '*')
     (.alt (.cat (rstr "Tenant ") (.cls clsDigitUpper)) (rstr "MyTenant"))⟩

/-- `"\\*|Environment [0-9A-Z]|MyEnvironment"` compiled. -/
def environmentsPattern : Pattern :=
  ⟨"\\*|Environment [0-9A-Z]|MyEnvironment",
   .alt (.chr '*')
     (.alt (.cat (rstr "Environment ") (.cls clsDigitUpper))
       (rstr "MyEnvironment"))⟩

/-- `"\\*|Machine [0-9A-Z]|Target [0-9A-Z]|MyMachine|MyTarget"` compiled. -/
def targetsPattern : Pattern :=
  ⟨"\\*|Machine [0-9A-Z]|Target [0-9A-Z]|MyMachine|MyTarget",
   .alt (.chr '*')
     (.alt (.cat (rstr "Machine ") (.cls clsDigitUpper))
       (.alt (.cat (rstr "Target ") (.cls clsDigitUpper))
         (.alt (rstr "MyMachine") (rstr "MyTarget"))))⟩

/-- `"\\*|Runbook [0-9A-Z]|MyRunbook"` compiled. -/
def runbooksPattern : Pattern :=
  ⟨"\\*|Runbook [0-9A-Z]|MyRunbook",
   .alt (.chr '*')
     (.alt (.cat (rstr "Runbook ") (.cls clsDigitUpper)) (rstr "MyRunbook"))⟩

/-- `"\\*|(Library )?Variable Set [0-9A-Z]|MyVariableSet|Variables"`
compiled. -/
def libraryVariableSetsPattern : Pattern :=
  ⟨"\\*|(Library )?Variable Set [0-9A-Z]|MyVariableSet|Variables",
   .alt (.chr '*')
     (.alt (.cat (.opt (rstr "Library "))
         (.cat (rstr "Variable Set ") (.cls clsDigitUpper)))
       (.alt (rstr "MyVariableSet") (rstr "Variables")))⟩

/-- `has_prefix(entry, ignored_re)` from `sanitized_list.py`: `False` when
the pattern is `None` or falsy (the empty string), otherwise
`re.match(ignored_re, entry)`. -/
def has_prefix (entry : String) (ignored_re : Option Pattern) : Bool :=
  match ignored_re with
  | .none => false
  | .some p => if p.src = "" then false else reMatch p.re entry

/-- The list comprehension in `sanitize_list`:
`[entry.strip() for entry in input_list if entry.strip() and not has_prefix(entry, ignored_re)]`.
Evaluating `entry.strip()` on a non-string raises `AttributeError`, at the
first such entry (left to right). -/
def sanitizeEntries (ignored_re : Option Pattern) : List PyVal → Except PyErr (List String)
  | [] => .ok []
  | .str e :: rest =>
    (sanitizeEntries ignored_re rest).map (fun r =>
      if pyStrip e ≠ "" && ! has_prefix e ignored_re then pyStrip e :: r else r)
  | _ :: _ => .error (.attributeError "object has no attribute strip")

/-- `sanitize_list(input_list, ignored_re)` from
`src/domain/strings/sanitized_list.py`.  Note the string branch tests
`has_prefix(ignored_re, ignored_re)` — the pattern against its own source
text — exactly as the source does. -/
def sanitize_list (input_list : PyVal) (ignored_re : Option Pattern) : Except PyErr (List String) :=
  match input_list with
  | .str s =>
    if pyStrip s ≠ "" &&
        ! has_prefix (match ignored_re with | .some p => p.src | .none => "") ignored_re then
      .ok [pyStrip s]
    else
      .ok []
  | v =>
    if v.truthy then
      match v with
      | .list xs => sanitizeEntries ignored_re xs
      | .tuple xs => sanitizeEntries ignored_re xs
      | _ => .error (.typeError "object is not iterable")
    else
      .ok []

/-- Wrap a sanitized list of strings back up as the Python list value the
entity sanitizers return. -/
def pyStrList (l : List String) : PyVal :=
  .list (l.map .str)

/-- `sanitize_projects` from `sanitized_list.py`. -/
def sanitize_projects (input_list : PyVal) : Except PyErr PyVal :=
  (sanitize_list input_list (some projectsPattern)).map pyStrList

/-- `sanitize_tenants` from `sanitized_list.py`. -/
def sanitize_tenants (input_list : PyVal) : Except PyErr PyVal :=
  (sanitize_list input_list (some tenantsPattern)).map pyStrList

/-- `sanitize_environments` from `sanitized_list.py`.  The source line ends
in a trailing comma (`return sanitize_list(...),`), so the function returns
a 1-tuple wrapping the list. -/
def sanitize_environments (input_list : PyVal) : Except PyErr PyVal :=
  (sanitize_list input_list (some environmentsPattern)).map
    (fun l => .tuple [pyStrList l])

/-- `sanitize_targets` from `sanitized_list.py`. -/
def sanitize_targets (input_list : PyVal) : Except PyErr PyVal :=
  (sanitize_list input_list (some targetsPattern)).map pyStrList

/-- `sanitize_runbooks` from `sanitized_list.py`. -/
def sanitize_runbooks (input_list : PyVal) : Except PyErr PyVal :=
  (sanitize_list input_list (some runbooksPattern)).map pyStrList

/-- `sanitize_library_variable_sets` from `sanitized_list.py`. -/
def sanitize_library_variable_sets (input_list : PyVal) : Except PyErr PyVal :=
  (sanitize_list input_list (some libraryVariableSetsPattern)).map pyStrList

/-! ## Context Reducer: `minify_hcl`, truncation measure, `query_llm` -/

/-- Split a character list into lines at `'\n'` (accumulator-based). -/
def splitLinesAux : List Char → List Char → List (List Char)
  | [], acc => [acc.reverse]
  | c :: rest, acc =>
    if c = '\n' then acc.reverse :: splitLinesAux rest []
    else splitLinesAux rest (c :: acc)

/-- Split a character list into lines at `'\n'`. -/
def splitLines (l : List Char) : List (List Char) := splitLinesAux l []

/-- Intra-line whitespace (indentation) characters. -/
def isIndentWs (c : Char) : Bool := c = ' ' || c = '\t' || c = '\r'

/-- Keep a line: non-blank and not a `#` comment. -/
def keepLine (l : List Char) : Bool :=
  !l.isEmpty && l.head? ≠ some '#'

/-- Rejoin lines with `'\n'`. -/
def joinLinesNL : List (List Char) → List Char
  | [] => []
  | [l] => l
  | l :: ls => l ++ '\n' :: joinLinesNL ls

/-- Modelled from the spec: `minify_hcl` (from `domain/strings/minify_hcl.py`,
which is not under `src/`).  Spec §4.3 step 1: "collapse the structured-text
document by removing non-semantic whitespace/formatting (comments, redundant
blank lines, indentation)".  We remove each line's indentation, drop blank
lines and `#` comment lines, and rejoin the rest with newlines. -/
def minify_hcl (s : String) : String :=
  ⟨joinLinesNL (((splitLines s.data).map (List.dropWhile isIndentWs)).filter keepLine)⟩

/-- Python string slicing `s[0:n]` (by code points). -/
def strTake (s : String) (n : Nat) : String := ⟨s.data.take n⟩

/-- `max_chars = 13500 * 4` from `copilot_handler.py`. -/
def max_chars : Nat := 13500 * 4

/-- The canonical refusal text. -/
def refusal_text : String := "Your query was too broad. Please ask a more specific question."

/-- `"Sorry, I did not understand that request."` from `copilot_handler.py`. -/
def NO_FUNCTION_RESPONSE : String := "Sorry, I did not understand that request."

/-- Round a rational to the nearest integer, ties to even — the behaviour of
Python's `round` (floats are modelled as exact rationals here). -/
def roundHalfEven (q : ℚ) : ℤ :=
  if q - ⌊q⌋ < 1 / 2 then ⌊q⌋
  else if 1 / 2 < q - ⌊q⌋ then ⌊q⌋ + 1
  else if ⌊q⌋ % 2 = 0 then ⌊q⌋ else ⌊q⌋ + 1

/-- Python `round(x, 2)`: round to two decimal places, ties to even. -/
def round2 (q : ℚ) : ℚ := (roundHalfEven (q * 100) : ℚ) / 100

/-- The `percent_truncated` expression of `query_llm`, with the character
budget as a parameter (`query_llm` instantiates it at `max_chars`):
`round((len(minified) - len(truncated)) / len(minified) * 100, 2) if len(minified) != 0 else 0`. -/
def percent_truncated_at (minified : String) (budget : Nat) : ℚ :=
  if minified.length ≠ 0 then
    round2 (((minified.length : ℚ) - ((strTake minified budget).length : ℚ))
      / (minified.length : ℚ) * 100)
  else 0

/-- The truncation measure exactly as the spec's formula states it (§4.3
step 3): `(len(minified) − len(truncated)) / len(minified) × 100`, defined
as `0` when `minified` is empty, with `truncated` the first `budget`
characters of `minified`.  (Stated from the spec's words, to be compared
with `percent_truncated_at`, which embeds the code.) -/
def spec_truncated_percent (minified : String) (budget : Nat) : ℚ :=
  if minified.length = 0 then 0
  else ((minified.length : ℚ) - ((strTake minified budget).length : ℚ))
    / (minified.length : ℚ) * 100

/-- Observable collaborator calls made by `query_llm`: query-logger calls
(identified by their label; logged values are elided) and the model
invocation with the exact `input` and `context` variables it receives. -/
inductive Event where
  | log (label : String)
  | invokeModel (input context : String)
  deriving DecidableEq, Repr

/-- `query_llm(message_prompt, context, query, log_query=None)` from
`copilot_handler.py`.  The Azure model client and the prompt/LLM chain are
abstracted into the collaborator `llm`, which receives the `input` and
`context` variables of `chain.invoke`; `log_query` is `none` for Python
`None`, and calling it then raises `TypeError` — exactly where the source
calls it.  Returns the trace of collaborator calls made, in order, together
with the returned value or raised exception.  Note that in the truncation
branch the source calls `log_query` without the `if log_query:` guard used
elsewhere. -/
def query_llm (message_prompt : List (String × String)) (context query : String)
    (log_query : Option Unit) (llm : String → String → String) :
    List Event × Except PyErr String :=
  let _ := message_prompt
  let minified_context := minify_hcl context
  let truncated_context := strTake minified_context max_chars
  let percent_truncated := percent_truncated_at minified_context max_chars
  if 0 < percent_truncated then
    match log_query with
    | .none => ([], .error (.typeError "NoneType object is not callable"))
    | .some _ =>
      ([.log "query_llm", .log "Context:", .log "Query:", .log "Context truncation:"],
       .ok refusal_text)
  else
    let response := llm query truncated_context
    match log_query with
    | .some _ =>
      ([.invokeModel query truncated_context,
        .log "query_llm", .log "Context:", .log "Query:", .log "Response:"],
       .ok response)
    | .none => ([.invokeModel query truncated_context], .ok response)

/-! ## Tool Router: validation and `handle_copilot_tools_execution` -/

/-- Modelled from the spec: `ensure_string_not_empty` from
`domain/validation/argument_validation.py`, which is not under `src/`.
Spec §4.1/§7: entry points fail with `InvalidArgument` when a required
string is empty or whitespace-only. -/
def ensure_string_not_empty (value : PyVal) (error_message : String) : Except PyErr Unit :=
  match value with
  | .str s => if pyStrip s = "" then .error (.invalidArgument error_message) else .ok ()
  | _ => .error (.invalidArgument error_message)

/-- Modelled from the spec: `ensure_not_falsy` from
`domain/validation/argument_validation.py`, which is not under `src/`.
Spec §4.1/§7: entry points fail with `InvalidArgument` when a required
value is absent (falsy). -/
def ensure_not_falsy (value : PyVal) (error_message : String) : Except PyErr Unit :=
  if value.truthy then .ok () else .error (.invalidArgument error_message)

/-- The registry returned by the tool provider `llm_tools()`: `get_tools()`
and `get_function(name)`.  Handlers are zero-argument callables producing a
response. -/
structure ToolFunctions where
  get_tools : List String
  get_function : String → (Unit → String)

/-- `FunctionCall` (`domain/tools/function_call.py`): the matched handler
together with the extracted `tool_input` mapping. -/
structure FunctionCall where
  func : Unit → String
  args : List (String × String)

/-- Observable collaborator calls made by `handle_copilot_tools_execution`:
the call to the tool provider `llm_tools()` and the agent's model-backed
`plan` call. -/
inductive TEvent where
  | callToolProvider
  | planModel (query : String)
  deriving DecidableEq, Repr

/-- `handle_copilot_tools_execution(query, llm_tools, log_query=None)` from
`copilot_handler.py`.  The agent construction and `agent.plan([], input=query)`
are abstracted into the collaborator `plan`, which receives the registered
tools and the query and returns the selected tool name and extracted
arguments, or `none` when the planned action has no `tool` attribute.
`llm_tools` is `none` for Python `None`; calling it then raises `TypeError`.
As in the source, the second validation call is applied to `query` (with the
`llm_tools` error message), not to `llm_tools`. -/
def handle_copilot_tools_execution (query : String)
    (llm_tools : Option ToolFunctions)
    (plan : List String → String → Option (String × List (String × String))) :
    List TEvent × Except PyErr FunctionCall :=
  match ensure_string_not_empty (.str query)
      "query must be a non-empty string (handle_copilot_tools_execution)." with
  | .error e => ([], .error e)
  | .ok _ =>
    match ensure_not_falsy (.str query)
        "llm_tools must not be None (handle_copilot_tools_execution)." with
    | .error e => ([], .error e)
    | .ok _ =>
      match llm_tools with
      | .none => ([], .error (.typeError "NoneType object is not callable"))
      | .some functions =>
        let tools := functions.get_tools
        match plan tools query with
        | .none =>
          ([.callToolProvider, .planModel query],
           .ok ⟨fun _ => NO_FUNCTION_RESPONSE, []⟩)
        | .some (tool, tool_input) =>
          ([.callToolProvider, .planModel query],
           .ok ⟨functions.get_function tool, tool_input⟩)

/-! ## Authorization Gate: `json.loads` model and `is_admin_user` -/

/-- Skip JSON inter-token whitespace. -/
def jsonSkipWs (l : List Char) : List Char :=
  l.dropWhile (fun c => c = ' ' || c = '\t' || c = '\n' || c = '\r')

/-- A parsed Python JSON value, as produced by `json.loads`: `null`,
booleans, numbers (kept as their lexeme — the numeric value is never
consulted by this code), strings, arrays and objects. -/
inductive JsonVal where
  | null
  | bool (b : Bool)
  | num (lexeme : String)
  | str (s : String)
  | arr (xs : List JsonVal)
  | obj (kvs : List (String × JsonVal))

/-- The value of a hexadecimal digit (code points: `0`-`9` are 48-57,
`A`-`F` are 65-70, `a`-`f` are 97-102). -/
def hexVal (c : Char) : Option Nat :=
  let n := c.toNat
  if 48 ≤ n && n ≤ 57 then some (n - 48)
  else if 65 ≤ n && n ≤ 70 then some (n - 55)
  else if 97 ≤ n && n ≤ 102 then some (n - 87)
  else none

/-- Parse the remainder of a JSON string literal (after the opening quote),
fuelled.  Escapes are those of Python `json.loads` in its default strict
mode: `\" \\ \/ \b \f \n \r \t \uXXXX`; raw control characters below
`0x20` are rejected; a `\uXXXX` high surrogate followed by a `\uXXXX` low
surrogate decodes to the combined code point.  (A lone surrogate, which
CPython keeps as an unpaired UTF-16 unit that Lean's `Char` cannot
represent, is mapped by `Char.ofNat` to `U+0000` — the one place this
model departs from CPython, and only inside the decoded text.) -/
def parseJStrAux : Nat → List Char → List Char → Option (String × List Char)
  | 0, _, _ => none
  | _ + 1, [], _ => none
  | fuel + 1, c :: rest, acc =>
    if c = '"' then some (⟨acc.reverse⟩, rest)
    else if c = '\\' then
      match rest with
      | [] => none
      | e :: rest2 =>
        if e = '"' then parseJStrAux fuel rest2 ('"' :: acc)
        else if e = '\\' then parseJStrAux fuel rest2 ('\\' :: acc)
        else if e = '/' then parseJStrAux fuel rest2 ('/' :: acc)
        else if e = 'b' then parseJStrAux fuel rest2 (Char.ofNat 8 :: acc)
        else if e = 'f' then parseJStrAux fuel rest2 (Char.ofNat 12 :: acc)
        else if e = 'n' then parseJStrAux fuel rest2 ('\n' :: acc)
        else if e = 'r' then parseJStrAux fuel rest2 ('\r' :: acc)
        else if e = 't' then parseJStrAux fuel rest2 ('\t' :: acc)
        else if e = 'u' then
          match rest2 with
          | h1 :: h2 :: h3 :: h4 :: rest3 =>
            match hexVal h1, hexVal h2, hexVal h3, hexVal h4 with
            | some a, some b, some c1, some d =>
              let n := ((a * 16 + b) * 16 + c1) * 16 + d
              if 55296 ≤ n && n ≤ 56319 then
                match rest3 with
                | '\\' :: 'u' :: g1 :: g2 :: g3 :: g4 :: rest4 =>
                  match hexVal g1, hexVal g2, hexVal g3, hexVal g4 with
                  | some a2, some b2, some c2, some d2 =>
                    let m := ((a2 * 16 + b2) * 16 + c2) * 16 + d2
                    if 56320 ≤ m && m ≤ 57343 then
                      parseJStrAux fuel rest4
                        (Char.ofNat (65536 + (n - 55296) * 1024 + (m - 56320)) :: acc)
                    else
                      parseJStrAux fuel rest4 (Char.ofNat m :: Char.ofNat n :: acc)
                  | _, _, _, _ => none
                | _ => parseJStrAux fuel rest3 (Char.ofNat n :: acc)
              else parseJStrAux fuel rest3 (Char.ofNat n :: acc)
            | _, _, _, _ => none
          | _ => none
        else none
    else if c.toNat < 32 then none
    else parseJStrAux fuel rest (c :: acc)

/-- A decimal digit. -/
def isJDigit (c : Char) : Bool := '0' ≤ c && c ≤ '9'

/-- The optional fraction and exponent parts of a JSON number, greedily, as
Python's scanner regex `(\.\d+)?([eE][-+]?\d+)?` takes them: a part that
does not fully materialize (`.` or `e` without digits) is left unconsumed
rather than an error, exactly as a regex match would stop before it. -/
def parseFracExp (l : List Char) : List Char × List Char :=
  let fr :=
    match l with
    | '.' :: r =>
      if (r.takeWhile isJDigit).isEmpty then ([], l)
      else ('.' :: r.takeWhile isJDigit, r.dropWhile isJDigit)
    | _ => ([], l)
  match fr with
  | (fracChars, l2) =>
    match l2 with
    | e :: r =>
      if e = 'e' || e = 'E' then
        let sr :=
          match r with
          | '+' :: r2 => (['+'], r2)
          | '-' :: r2 => (['-'], r2)
          | _ => (([] : List Char), r)
        match sr with
        | (sgn, r2) =>
          let ds := r2.takeWhile isJDigit
          if ds.isEmpty then (fracChars, l2)
          else (fracChars ++ e :: (sgn ++ ds), r2.dropWhile isJDigit)
      else (fracChars, l2)
    | [] => (fracChars, l2)

/-- The integer-and-following part of a JSON number (no leading sign):
`0` or a nonzero digit followed by digits, then optional fraction and
exponent.  A leading zero followed by more digits stops after the zero,
as Python's scanner regex `(0|[1-9]\d*)` does (the leftover digit then
fails at the surrounding structural level). -/
def parseJNumberNoSign (l : List Char) : Option (String × List Char) :=
  match l with
  | '0' :: r =>
    match parseFracExp r with
    | (fe, r2) => some (⟨'0' :: fe⟩, r2)
  | c :: r =>
    if isJDigit c then
      match parseFracExp (r.dropWhile isJDigit) with
      | (fe, r2) => some (⟨c :: (r.takeWhile isJDigit ++ fe)⟩, r2)
    else none
  | [] => none

/-- A JSON number with its optional leading `-`. -/
def parseJNumber (l : List Char) : Option (String × List Char) :=
  match l with
  | '-' :: r => (parseJNumberNoSign r).map (fun p => (⟨'-' :: p.1.data⟩, p.2))
  | _ => parseJNumberNoSign l

/-- One or more comma-separated JSON array members, fuelled, parsing each
member with `pv`; the remainder starts at the character after the last
member (the caller checks for `]`). -/
def parseArrItems (pv : List Char → Option (JsonVal × List Char)) :
    Nat → List Char → Option (List JsonVal × List Char)
  | 0, _ => none
  | fuel + 1, l =>
    match pv (jsonSkipWs l) with
    | none => none
    | some (v, r) =>
      match jsonSkipWs r with
      | ',' :: r2 => (parseArrItems pv fuel r2).map (fun p => (v :: p.1, p.2))
      | r2 => some ([v], r2)

/-- One or more comma-separated JSON object members (`"key": value`),
fuelled, parsing each value with `pv`; keys must be string literals, as in
Python. -/
def parseObjItems (pv : List Char → Option (JsonVal × List Char)) :
    Nat → List Char → Option (List (String × JsonVal) × List Char)
  | 0, _ => none
  | fuel + 1, l =>
    match jsonSkipWs l with
    | '"' :: rest =>
      match parseJStrAux (rest.length + 1) rest [] with
      | none => none
      | some (k, r) =>
        match jsonSkipWs r with
        | ':' :: r2 =>
          match pv (jsonSkipWs r2) with
          | none => none
          | some (v, r3) =>
            match jsonSkipWs r3 with
            | ',' :: r4 =>
              (parseObjItems pv fuel r4).map (fun p => ((k, v) :: p.1, p.2))
            | r4 => some ([(k, v)], r4)
        | _ => none
    | _ => none

/-- A single JSON value, fuelled: object, array, string, number, `true`,
`false`, `null`, and CPython's default extensions `NaN`, `Infinity`,
`-Infinity`.  Expects its input to start at the value's first character. -/
def parseJValue : Nat → List Char → Option (JsonVal × List Char)
  | 0, _ => none
  | fuel + 1, l =>
    match l with
    | '"' :: rest =>
      (parseJStrAux (rest.length + 1) rest []).map (fun p => (.str p.1, p.2))
    | '[' :: rest =>
      (match jsonSkipWs rest with
       | ']' :: r => some (.arr [], r)
       | r0 =>
         match parseArrItems (parseJValue fuel) (r0.length + 1) r0 with
         | some (vs, r1) =>
           (match r1 with
            | ']' :: r2 => some (.arr vs, r2)
            | _ => none)
         | none => none)
    | '\x7b' :: rest =>
      (match jsonSkipWs rest with
       | '\x7d' :: r => some (.obj [], r)
       | r0 =>
         match parseObjItems (parseJValue fuel) (r0.length + 1) r0 with
         | some (kvs, r1) =>
           (match r1 with
            | '\x7d' :: r2 => some (.obj kvs, r2)
            | _ => none)
         | none => none)
    | 't' :: 'r' :: 'u' :: 'e' :: rest => some (.bool true, rest)
    | 'f' :: 'a' :: 'l' :: 's' :: 'e' :: rest => some (.bool false, rest)
    | 'n' :: 'u' :: 'l' :: 'l' :: rest => some (.null, rest)
    | 'N' :: 'a' :: 'N' :: rest => some (.num "NaN", rest)
    | 'I' :: 'n' :: 'f' :: 'i' :: 'n' :: 'i' :: 't' :: 'y' :: rest =>
      some (.num "Infinity", rest)
    | '-' :: 'I' :: 'n' :: 'f' :: 'i' :: 'n' :: 'i' :: 't' :: 'y' :: rest =>
      some (.num "-Infinity", rest)
    | _ => (parseJNumber l).map (fun p => (.num p.1, p.2))

/-- Modelled stdlib: Python `json.loads` with default settings — one JSON
document (object, array, string, number, `true`/`false`/`null`, plus
CPython's `NaN`/`Infinity`/`-Infinity`), surrounded by optional
whitespace; anything after it is `Extra data` and an unparsable document
is `Expecting value`.  See `parseJStrAux` for the one divergence (lone
surrogates in `\u` escapes). -/
def json_loads (s : String) : Except PyErr JsonVal :=
  match parseJValue (s.length + 1) (jsonSkipWs s.data) with
  | some (v, rest) =>
    if (jsonSkipWs rest).isEmpty then .ok v else .error (.valueError "Extra data")
  | none => .error (.valueError "Expecting value")

/-- Python `u in xs` for a list `xs`: `u == x` for some element; a string
compares equal only to an equal string, never to a number, boolean, `None`,
list or dict. -/
def arrContainsStr (u : String) : List JsonVal → Bool
  | [] => false
  | .str s :: rest => s == u || arrContainsStr u rest
  | _ :: rest => arrContainsStr u rest

/-- Python `u in d` for a dict `d`: key membership. -/
def objHasKey (u : String) : List (String × JsonVal) → Bool
  | [] => false
  | (k, _) :: rest => k == u || objHasKey u rest

/-- Is `needle` a contiguous infix of the list? -/
def listHasInfix (needle : List Char) : List Char → Bool
  | [] => needle.isEmpty
  | c :: rest => needle.isPrefixOf (c :: rest) || listHasInfix needle rest

/-- Python's membership test `u in v` as `is_admin_user` exercises it on a
parsed JSON document: element equality for a list, substring containment
for a string, key membership for a dict, and `TypeError` for a number,
boolean or `None`. -/
def pyIn (u : String) (v : JsonVal) : Except PyErr Bool :=
  match v with
  | .arr xs => .ok (arrContainsStr u xs)
  | .str s => .ok (listHasInfix u.data s.data)
  | .obj kvs => .ok (objHasKey u kvs)
  | _ => .error (.typeError "argument of type is not iterable")

/-- The observable collaborator call made by `is_admin_user` after a
successful check: the wrapped `callback` invocation. -/
inductive AEvent where
  | callbackInvoked
  deriving DecidableEq, Repr

/-- `is_admin_user(user, get_admin_users, callback)` from
`src/domain/security/security.py`.  The collaborators `user` and
`get_admin_users` are modelled by their outcome (returned string or raised
exception), `callback` by its outcome; the trace records whether `callback`
was invoked.  The `try` block covers fetching, parsing and the membership
test `user() not in admin_users`, in source order (`get_admin_users()`,
`json.loads`, `user()`, membership); every exception raised there —
including the explicit `raise NotAuthorized()` and the `TypeError` that
membership raises on a non-container document — is caught by
`except Exception` and re-raised as `NotAuthorized`.  `return callback()`
sits after the `try`/`except` block. -/
def is_admin_user {α : Type} (user : Except PyErr String)
    (get_admin_users : Except PyErr String)
    (callback : Except PyErr α) : List AEvent × Except PyErr α :=
  let check : Except PyErr Unit :=
    match get_admin_users with
    | .error _ => .error .notAuthorized
    | .ok raw =>
      match json_loads raw with
      | .error _ => .error .notAuthorized
      | .ok admin_users =>
        match user with
        | .error _ => .error .notAuthorized
        | .ok u =>
          match pyIn u admin_users with
          | .error _ => .error .notAuthorized
          | .ok b => if b then .ok () else .error .notAuthorized
  match check with
  | .error e => ([], .error e)
  | .ok _ => ([.callbackInvoked], callback)

/-- The gate's success condition as the amended C8 claim states it: both
provider calls succeed, the allow-list document parses as JSON, and
Python's membership test `principal in parsed` returns `true` — element
equality for an array, substring containment for a string document, key
membership for an object; a document on which membership raises (number,
boolean, `null`) never succeeds.  (Stated from the amended claim's words,
to be compared with `is_admin_user`, which embeds the code.) -/
def gate_succeeds (user : Except PyErr String)
    (get_admin_users : Except PyErr String) : Bool :=
  match user, get_admin_users with
  | .ok u, .ok raw =>
    match json_loads raw with
    | .ok v =>
      match pyIn u v with
      | .ok b => b
      | .error _ => false
    | .error _ => false
  | _, _ => false

/-! ## Supporting lemmas -/

/-- A configuration document of `n` copies of `'a'`. -/
def bigDoc (n : Nat) : String := ⟨List.replicate n 'a'⟩

lemma splitLinesAux_no_nl (l acc : List Char) (h : '\n' ∉ l) :
    splitLinesAux l acc = [acc.reverse ++ l] := by
  induction l generalizing acc with
  | nil => simp [splitLinesAux]
  | cons c rest ih =>
    have hc : c ≠ '\n' := fun hc => h (hc ▸ List.mem_cons_self c rest)
    have hr : '\n' ∉ rest := fun hr => h (List.mem_cons_of_mem c hr)
    simp [splitLinesAux, hc, ih _ hr]

lemma dropWhile_replicate_of_false {c : Char} (n : Nat) (h : isIndentWs c = false) :
    (List.replicate n c).dropWhile isIndentWs = List.replicate n c := by
  cases n with
  | zero => rfl
  | succ m => simp [List.replicate_succ, List.dropWhile_cons, h]

lemma minify_bigDoc (n : Nat) (hn : n ≠ 0) : minify_hcl (bigDoc n) = bigDoc n := by
  have hnl : '\n' ∉ List.replicate n 'a' := by
    intro h
    rcases (List.mem_replicate).1 h with ⟨_, h2⟩
    exact absurd h2 (by decide)
  have hsplit : splitLines (List.replicate n 'a') = [List.replicate n 'a'] := by
    simpa using splitLinesAux_no_nl (List.replicate n 'a') [] hnl
  have hdrop := dropWhile_replicate_of_false (c := 'a') n (by decide)
  have hkeep : keepLine (List.replicate n 'a') = true := by
    cases n with
    | zero => exact absurd rfl hn
    | succ m => simp [keepLine, List.replicate_succ]
  unfold minify_hcl bigDoc
  rw [show (⟨List.replicate n 'a'⟩ : String).data = List.replicate n 'a' from rfl,
    hsplit]
  simp [hdrop, hkeep, joinLinesNL]

lemma bigDoc_length (n : Nat) : (bigDoc n).length = n := by
  simp [bigDoc, String.length]

lemma strTake_bigDoc (n m : Nat) : strTake (bigDoc n) m = bigDoc (min m n) := by
  simp [strTake, bigDoc, List.take_replicate]

lemma bigDoc_ne (n m : Nat) (h : n ≠ m) : bigDoc n ≠ bigDoc m := by
  intro he
  exact h (by simpa [bigDoc_length] using congrArg String.length he)

lemma query_llm_not_truncated (mp : List (String × String)) (ctx q : String)
    (lq : Option Unit) (llm : String → String → String)
    (h : ¬ 0 < percent_truncated_at (minify_hcl ctx) max_chars) :
    query_llm mp ctx q lq llm =
      (Event.invokeModel q (strTake (minify_hcl ctx) max_chars) ::
        (match lq with
         | some _ => [Event.log "query_llm", Event.log "Context:",
                      Event.log "Query:", Event.log "Response:"]
         | none => []),
       .ok (llm q (strTake (minify_hcl ctx) max_chars))) := by
  simp only [query_llm]
  rw [if_neg h]
  cases lq <;> rfl

lemma query_llm_truncated (mp : List (String × String)) (ctx q : String)
    (lq : Option Unit) (llm : String → String → String)
    (h : 0 < percent_truncated_at (minify_hcl ctx) max_chars) :
    query_llm mp ctx q lq llm =
      (match lq with
       | none => ([], .error (.typeError "NoneType object is not callable"))
       | some _ => ([.log "query_llm", .log "Context:", .log "Query:",
                     .log "Context truncation:"], .ok refusal_text)) := by
  simp only [query_llm]
  rw [if_pos h]

/-- **C1** — the claim fails on the code: for a context whose minified form
is 54001 characters (one over the 54000-character budget), the code's
rounded `percent_truncated` is `0` even though truncation occurred
(the spec formula gives a strictly positive measure), so `query_llm`
invokes the model — and hands it the 54000-character truncated context,
not the untruncated minified text. -/
theorem query_llm_invokes_model_on_rounded_away_truncation :
    percent_truncated_at (minify_hcl (bigDoc 54001)) max_chars = 0 ∧
    0 < spec_truncated_percent (minify_hcl (bigDoc 54001)) max_chars ∧
    Event.invokeModel "q" (bigDoc 54000) ∈
      (query_llm [] (bigDoc 54001) "q" (some ()) (fun _ _ => "answer")).1 ∧
    (query_llm [] (bigDoc 54001) "q" (some ()) (fun _ _ => "answer")).2 = .ok "answer" ∧
    bigDoc 54000 ≠ minify_hcl (bigDoc 54001) := by
  have hm : minify_hcl (bigDoc 54001) = bigDoc 54001 := minify_bigDoc _ (by norm_num)
  have htake : strTake (bigDoc 54001) max_chars = bigDoc 54000 := by
    rw [strTake_bigDoc]
    norm_num [max_chars]
  have hpct : percent_truncated_at (minify_hcl (bigDoc 54001)) max_chars = 0 := by
    rw [hm]
    unfold percent_truncated_at
    rw [bigDoc_length, strTake_bigDoc, bigDoc_length]
    norm_num [max_chars, round2, roundHalfEven]
  have heval := query_llm_not_truncated [] (bigDoc 54001) "q" (some ())
    (fun _ _ => "answer") (by rw [hpct]; norm_num)
  refine ⟨hpct, ?_, ?_, ?_, ?_⟩
  · rw [hm]
    unfold spec_truncated_percent
    rw [bigDoc_length, strTake_bigDoc, bigDoc_length]
    norm_num [max_chars]
  · rw [heval, hm, htake]
    simp
  · rw [heval]
  · rw [hm]
    exact bigDoc_ne _ _ (by norm_num)

/-- **C4** — the claim fails on the code: for a context whose minified form
is truncated (108000 characters against the 54000 budget), `query_llm`
returns the refusal when a logger is supplied, but raises `TypeError` when
`log_query` is `None` (the refusal branch calls `log_query` without the
`if log_query:` guard), so the outcome depends on whether a logger is
supplied. -/
theorem query_llm_outcome_depends_on_logger :
    (query_llm [] (bigDoc 108000) "q" .none (fun _ _ => "answer")).2 =
      .error (.typeError "NoneType object is not callable") ∧
    (query_llm [] (bigDoc 108000) "q" (some ()) (fun _ _ => "answer")).2 =
      .ok refusal_text ∧
    (query_llm [] (bigDoc 108000) "q" .none (fun _ _ => "answer")).2 ≠
      (query_llm [] (bigDoc 108000) "q" (some ()) (fun _ _ => "answer")).2 := by
  have hm : minify_hcl (bigDoc 108000) = bigDoc 108000 := minify_bigDoc _ (by norm_num)
  have hpos : 0 < percent_truncated_at (minify_hcl (bigDoc 108000)) max_chars := by
    rw [hm]
    unfold percent_truncated_at
    rw [bigDoc_length, strTake_bigDoc, bigDoc_length]
    norm_num [max_chars, round2, roundHalfEven]
  have h1 := query_llm_truncated [] (bigDoc 108000) "q" .none (fun _ _ => "answer") hpos
  have h2 := query_llm_truncated [] (bigDoc 108000) "q" (some ()) (fun _ _ => "answer") hpos
  refine ⟨by rw [h1], by rw [h2], by rw [h1, h2]; simp⟩

/-- **C7** — the claim fails on the code: the computed measure is the spec
formula **rounded to two decimal places**, not the exact value.  At a
54003-character minified document the code computes `0.01` while the exact
formula gives `100/18001 ≈ 0.0055…`. -/
theorem percent_truncated_differs_from_spec_formula :
    percent_truncated_at (bigDoc 54003) max_chars = 1 / 100 ∧
    spec_truncated_percent (bigDoc 54003) max_chars = 100 / 18001 ∧
    percent_truncated_at (bigDoc 54003) max_chars ≠
      spec_truncated_percent (bigDoc 54003) max_chars := by
  have h1 : percent_truncated_at (bigDoc 54003) max_chars = 1 / 100 := by
    unfold percent_truncated_at
    rw [bigDoc_length, strTake_bigDoc, bigDoc_length]
    norm_num [max_chars, round2, roundHalfEven]
  have h2 : spec_truncated_percent (bigDoc 54003) max_chars = 100 / 18001 := by
    unfold spec_truncated_percent
    rw [bigDoc_length, strTake_bigDoc, bigDoc_length]
    norm_num [max_chars]
  refine ⟨h1, h2, by rw [h1, h2]; norm_num⟩

/-- **C7 (amended)** — for every minified context string and budget, the
truncation measure computed by the code equals the spec's formula
`(len(minified) − len(truncated)) / len(minified) × 100` rounded to two
decimal places (ties to even), and equals `0` when `minified` is empty. -/
theorem percent_truncated_eq_rounded_spec_formula (minified : String) (budget : Nat) :
    percent_truncated_at minified budget = round2 (spec_truncated_percent minified budget) := by
  unfold percent_truncated_at spec_truncated_percent
  by_cases h : minified.length = 0
  · simp only [h, ne_eq, not_true_eq_false, if_false, if_true, ite_true, ite_false,
      not_false_eq_true]
    norm_num [round2, roundHalfEven]
  · simp [h]

/-- **C3** — the claim fails on the code: the single-string branch of
`sanitize_list` tests `has_prefix(ignored_re, ignored_re)` — the ignore
pattern against its own source text — instead of testing the input string,
so a bare wildcard `"*"` sanitizes to `["*"]` under every entity kind's
pattern rather than to the empty list.  (A realistic name still sanitizes
to itself, trimmed.) -/
theorem sanitize_list_wildcard_survives_string_branch :
    sanitize_list (.str "*") (some projectsPattern) = .ok ["*"] ∧
    sanitize_projects (.str "*") = .ok (.list [.str "*"]) ∧
    sanitize_tenants (.str "*") = .ok (.list [.str "*"]) ∧
    sanitize_environments (.str "*") = .ok (.tuple [.list [.str "*"]]) ∧
    sanitize_targets (.str "*") = .ok (.list [.str "*"]) ∧
    sanitize_runbooks (.str "*") = .ok (.list [.str "*"]) ∧
    sanitize_library_variable_sets (.str "*") = .ok (.list [.str "*"]) ∧
    sanitize_list (.str " Deploy WebApp ") (some projectsPattern) = .ok ["Deploy WebApp"] :=
  ⟨rfl, rfl, rfl, rfl, rfl, rfl, rfl, rfl⟩

/-- **C5** — the claim fails on the code: `sanitize_environments` returns a
1-tuple wrapping the sanitized list (the source line ends in a trailing
comma), while the other sanitizers, e.g. `sanitize_projects`, return the
plain list. -/
theorem sanitize_environments_wraps_list_in_tuple :
    sanitize_environments (pyStrList ["Production"]) =
      .ok (.tuple [.list [.str "Production"]]) ∧
    sanitize_projects (pyStrList ["Production"]) = .ok (.list [.str "Production"]) ∧
    PyVal.tuple [.list [.str "Production"]] ≠ PyVal.list [.str "Production"] :=
  ⟨rfl, rfl, by simp⟩

/-- **C9** — the claim fails on the code: sanitizing twice is not sanitizing
once.  For the single string `"*"` under the tenants ignore pattern, one
application yields `["*"]` (the string branch tests the pattern against its
own source, not the input), and re-wrapping that output as input and
sanitizing again yields `[]` (the list branch tests entries correctly). -/
theorem sanitize_list_not_idempotent :
    sanitize_list (.str "*") (some tenantsPattern) = .ok ["*"] ∧
    sanitize_list (pyStrList ["*"]) (some tenantsPattern) = .ok [] ∧
    (["*"] : List String) ≠ [] :=
  ⟨rfl, rfl, by simp⟩

/-- **C6 (counterexample)** — the claim fails on the code: `sanitize_list`
does raise on some malformed inputs.  A truthy non-iterable (the integer
`5`) raises `TypeError`, and a list containing a non-string raises
`AttributeError` when `entry.strip()` is evaluated. -/
theorem sanitize_list_raises_on_malformed :
    sanitize_list (.int 5) .none = .error (.typeError "object is not iterable") ∧
    sanitize_list (.list [.int 1]) .none =
      .error (.attributeError "object has no attribute strip") :=
  ⟨rfl, rfl⟩

lemma sanitizeEntries_ok_of_strings (p : Option Pattern) (xs : List PyVal)
    (h : ∀ x ∈ xs, ∃ s, x = PyVal.str s) : ∃ l, sanitizeEntries p xs = .ok l := by
  induction xs with
  | nil => exact ⟨[], rfl⟩
  | cons x rest ih =>
    obtain ⟨s, rfl⟩ := h x (List.mem_cons_self x rest)
    obtain ⟨l, hl⟩ := ih (fun y hy => h y (List.mem_cons_of_mem _ hy))
    have hstep : sanitizeEntries p (PyVal.str s :: rest)
        = (sanitizeEntries p rest).map (fun r =>
            if pyStrip s ≠ "" && ! has_prefix s p then pyStrip s :: r else r) := rfl
    refine ⟨if pyStrip s ≠ "" && ! has_prefix s p then pyStrip s :: l else l, ?_⟩
    rw [hstep, hl]
    rfl

/-- **C6 (amended)** — for every input that is a string, a list of strings,
or falsy, `sanitize_list` never raises; a falsy (absent/empty) input
degrades to the empty sequence. -/
theorem sanitize_list_total_on_wellformed (input : PyVal) (p : Option Pattern)
    (h : (∃ s, input = PyVal.str s) ∨
         (∃ xs, input = PyVal.list xs ∧ ∀ x ∈ xs, ∃ s, x = PyVal.str s) ∨
         input.truthy = false) :
    (sanitize_list input p).isOk = true ∧
      (input.truthy = false → sanitize_list input p = .ok []) := by
  rcases h with ⟨s, rfl⟩ | ⟨xs, rfl, hxs⟩ | hf
  · constructor
    · simp only [sanitize_list]
      split <;> rfl
    · intro hfalse
      have he : s = "" := by simpa [PyVal.truthy] using hfalse
      subst he
      rfl
  · cases xs with
    | nil => exact ⟨rfl, fun _ => rfl⟩
    | cons x rest =>
      obtain ⟨l, hl⟩ := sanitizeEntries_ok_of_strings p (x :: rest) hxs
      have hrun : sanitize_list (PyVal.list (x :: rest)) p = .ok l := by
        simpa [sanitize_list, PyVal.truthy] using hl
      exact ⟨by rw [hrun]; rfl, fun hfalse => absurd hfalse (by simp [PyVal.truthy])⟩
  · cases input with
    | str s =>
      have : s = "" := by simpa [PyVal.truthy] using hf
      subst this
      exact ⟨rfl, fun _ => rfl⟩
    | list xs =>
      have : xs = [] := by simpa [PyVal.truthy] using hf
      subst this
      exact ⟨rfl, fun _ => rfl⟩
    | tuple xs =>
      have : xs = [] := by simpa [PyVal.truthy] using hf
      subst this
      exact ⟨rfl, fun _ => rfl⟩
    | none => exact ⟨rfl, fun _ => rfl⟩
    | int n =>
      have : n = 0 := by simpa [PyVal.truthy] using hf
      subst this
      exact ⟨rfl, fun _ => rfl⟩
    | bool b =>
      have : b = false := by simpa [PyVal.truthy] using hf
      subst this
      exact ⟨rfl, fun _ => rfl⟩

/-- Witness for the amended C6 theorem: `None` input sanitizes without
raising, to the empty sequence. -/
theorem sanitize_list_total_on_wellformed_witness :
    (sanitize_list PyVal.none .none).isOk = true ∧
      (PyVal.none.truthy = false → sanitize_list PyVal.none .none = .ok []) :=
  sanitize_list_total_on_wellformed PyVal.none .none (Or.inr (Or.inr rfl))

/-- **C2** — the claim fails on the code: with a valid query and an absent
(`None`) tool provider, both validation calls pass (the source validates
`query` twice — the second `ensure_not_falsy` is applied to `query`, with
the `llm_tools` error message), and the call then fails with `TypeError`
at the point of invoking the `None` provider, not with `InvalidArgument`
raised synchronously beforehand.  An empty or whitespace-only query does
fail with `InvalidArgument` before any collaborator call. -/
theorem handle_copilot_tools_execution_none_provider :
    handle_copilot_tools_execution "list the projects" .none (fun _ _ => .none) =
      ([], .error (.typeError "NoneType object is not callable")) ∧
    PyErr.typeError "NoneType object is not callable" ≠
      PyErr.invalidArgument "llm_tools must not be None (handle_copilot_tools_execution)." ∧
    handle_copilot_tools_execution "   " .none (fun _ _ => .none) =
      ([], .error (.invalidArgument
        "query must be a non-empty string (handle_copilot_tools_execution).")) :=
  ⟨rfl, by simp, rfl⟩

lemma arrContainsStr_map_str_of_mem {u : String} {admins : List String}
    (hm : u ∈ admins) : arrContainsStr u (admins.map JsonVal.str) = true := by
  induction admins with
  | nil => cases hm
  | cons a rest ih =>
    rcases List.mem_cons.mp hm with h | h
    · subst h
      simp [arrContainsStr]
    · simp [arrContainsStr, ih h]

/-- **C8 (counterexample)** — the claim fails on the code: success is not
limited to "the principal is present in the parsed list", because Python's
`in` also succeeds on documents that are not arrays.  Principal `"lic"` is
authorized by the allow-list document `"alice"` (substring membership in a
JSON string document), principal `"alice"` by `["alice", 1]` (an array
with a non-string member) and by the object `\x7b"alice": 1\x7d` (key
membership) — the callback runs and its result is returned in all three
cases, where the claim demands `NotAuthorized`. -/
theorem is_admin_user_authorizes_beyond_list_membership :
    json_loads "\"alice\"" = .ok (.str "alice") ∧
    is_admin_user (.ok "lic") (.ok "\"alice\"") (.ok (42 : Int)) =
      ([.callbackInvoked], .ok 42) ∧
    is_admin_user (.ok "alice") (.ok "[\"alice\", 1]") (.ok (42 : Int)) =
      ([.callbackInvoked], .ok 42) ∧
    is_admin_user (.ok "alice") (.ok "\x7b\"alice\": 1\x7d") (.ok (42 : Int)) =
      ([.callbackInvoked], .ok 42) :=
  ⟨rfl, rfl, rfl, rfl⟩

/-- **C8 (amended)** — `is_admin_user` realizes exactly the gate given by
Python's membership semantics: the wrapped action is invoked exactly once
and its outcome returned unchanged precisely when both provider calls
succeed, the allow-list document parses as JSON, and `principal in parsed`
returns `true` (element equality for an array, substring containment for a
string document, key membership for an object); in every other case —
fetch failure, parse failure for any reason, principal lookup failure,
membership `false`, or membership raising on a non-container document —
no action call is made and the call fails with `NotAuthorized`.  No path
other than these two exists. -/
theorem is_admin_user_matches_membership_gate {α : Type} (user gau : Except PyErr String)
    (callback : Except PyErr α) :
    is_admin_user user gau callback =
      if gate_succeeds user gau then ([.callbackInvoked], callback)
      else ([], .error .notAuthorized) := by
  unfold is_admin_user gate_succeeds
  cases gau with
  | error e => cases user <;> simp
  | ok raw =>
    cases user with
    | error e => cases hj : json_loads raw <;> simp [hj]
    | ok u =>
      cases hj : json_loads raw with
      | error e => simp [hj]
      | ok v =>
        cases hb : pyIn u v with
        | error e => simp [hj, hb]
        | ok b => cases b <;> simp [hj, hb]

/-- **C10** — when the authorization check succeeds (here: the allow-list
parses as a JSON array of strings and the current principal is one of
them) but the wrapped action itself fails, the action's exception
propagates to the caller unchanged — it is not converted into
`NotAuthorized`, because the action is invoked after the guarded `try`
block. -/
theorem is_admin_user_propagates_action_error {α : Type} (user gau : Except PyErr String)
    (raw u : String) (admins : List String) (err : PyErr)
    (hg : gau = .ok raw) (hj : json_loads raw = .ok (.arr (admins.map JsonVal.str)))
    (hu : user = .ok u) (hm : u ∈ admins) :
    is_admin_user user gau (.error err : Except PyErr α) =
      ([.callbackInvoked], .error err) := by
  subst hg hu
  unfold is_admin_user
  simp [hj, pyIn, arrContainsStr_map_str_of_mem hm]

/-- Witness for the C10 theorem: principal `"alice"` against allow-list
`["alice"]` with an action failing with `ValueError` — the `ValueError`
propagates unchanged. -/
theorem is_admin_user_propagates_action_error_witness :
    is_admin_user (.ok "alice") (.ok "[\"alice\"]")
        (.error (.valueError "boom") : Except PyErr Int) =
      ([.callbackInvoked], .error (.valueError "boom")) :=
  is_admin_user_propagates_action_error (.ok "alice") (.ok "[\"alice\"]") "[\"alice\"]"
    "alice" ["alice"] (.valueError "boom") rfl rfl rfl (by simp)
